import Mathlib

/-!
# Verification of the Incomiq local persistence and credential core

Shallow embedding of the fallback file-based subsystem of the Incomiq
backend: the local credential registry (`backend/app/local_auth.py`), the
bearer-token resolver (`backend/app/auth.py`), the per-user JSON document
store (`backend/app/local_storage.py`), and the route-level operations that
the specification's claims reference (`routes/incomes.py`, `routes/goals.py`,
`routes/admin.py`).

Modelling conventions:
* Python dicts become association lists (`List (key × value)`) with the
  insertion-order update semantics of CPython dicts (`pySet`).
* JSON values that the claims exercise become the inductive type `Val`
  (strings, rationals standing in for Python numbers, booleans, nested
  objects).  Monetary amounts are rationals; IEEE-754 rounding is out of
  scope of the claims settled here.
* The file system is an association list from `(user_id, data_type)` keys to
  `Option (List Record)`; `some l` is a parseable file holding `l`, `none`
  is a file whose contents fail to parse, and an absent key is a missing
  file.  This mirrors the `try/except` around `json.loads` in the source.
* Nondeterministic inputs of the source (fresh uuid/token/salt values,
  `datetime.now()`, Python's per-process randomised `hash`) are explicit
  parameters of the embedded functions.
* PBKDF2-SHA256 (`hashlib.pbkdf2_hmac`) is an external library call; the
  embedding abstracts it as a parameter `H : String → String → String`
  applied to password and salt, exactly where the source applies
  `_hash_password`.
-/

namespace Incomiq

/-! ## Python string primitives (on `String.data` character lists) -/

/-- `str.lower()` restricted to ASCII, which is all the source manipulates. -/
def pyLower (s : String) : String := ⟨s.data.map Char.toLower⟩

/-- Characters removed by Python's `str.strip()` (ASCII whitespace). -/
def isStripChar (c : Char) : Bool :=
  c == ' ' || c == '\t' || c == '\n' || c == '\r' || c == '\x0b' || c == '\x0c'

/-- Drop strip-characters from both ends of a character list. -/
def stripList (cs : List Char) : List Char :=
  ((cs.dropWhile isStripChar).reverse.dropWhile isStripChar).reverse

/-- `str.strip()`. -/
def pyStrip (s : String) : String := ⟨stripList s.data⟩

/-- `email.lower().strip()`, the canonicalisation applied throughout
`local_auth.py`. -/
def pyNormalize (s : String) : String := pyStrip (pyLower s)

/-- `s[:n]` on a Python string. -/
def pyTake (n : Nat) (s : String) : String := ⟨s.data.take n⟩

/-- `needle in haystack` on character lists (Python substring test). -/
def containsSub (needle : List Char) : List Char → Bool
  | [] => needle.isEmpty
  | c :: cs => needle.isPrefixOf (c :: cs) || containsSub needle cs

/-- `needle in haystack` on strings. -/
def pyContains (haystack needle : String) : Bool :=
  containsSub needle.data haystack.data

/-- `s.endswith(suffix)`. -/
def pyEndsWith (s suffix : String) : Bool :=
  suffix.data.reverse.isPrefixOf s.data.reverse

/-- Lexicographic `<` on character lists, Python's string ordering. -/
def strLtList : List Char → List Char → Bool
  | [], [] => false
  | [], _ :: _ => true
  | _ :: _, [] => false
  | a :: as, b :: bs => if a < b then true else if b < a then false else strLtList as bs

/-- Python `a < b` on strings. -/
def pyStrLt (a b : String) : Bool := strLtList a.data b.data

/-- Python `a > b` on strings. -/
def pyStrGt (a b : String) : Bool := pyStrLt b a

/-- Python `l[-n:]`: the last `n` elements (all of them when shorter). -/
def pyLastN {α : Type} (n : Nat) (l : List α) : List α := l.drop (l.length - n)

/-! ## JSON-like values and dict (association-list) operations -/

/-- JSON-like record values stored by the document store.  Numbers are
modelled as rationals. -/
inductive Val where
  | s (str : String)
  | num (q : Rat)
  | b (bb : Bool)
  | obj (fields : List (String × Val))

/-- Python `value == some_string`: true exactly when the value is that
string (comparisons of a str against a non-str are `False` in Python). -/
def valEqStr (v : Val) (t : String) : Bool :=
  match v with
  | Val.s str => str == t
  | _ => false

/-- A Python dict used as a record: ordered key/value pairs with distinct
keys (CPython preserves insertion order). -/
abbrev Record := List (String × Val)

/-- `d[k] = v` on a CPython dict: replace in place when the key is present,
append at the end otherwise. -/
def pySet {κ α : Type} [BEq κ] : List (κ × α) → κ → α → List (κ × α)
  | [], k, v => [(k, v)]
  | (k', v') :: rest, k, v =>
      if k' == k then (k, v) :: rest else (k', v') :: pySet rest k v

/-- Removal of every entry stored under a key (used to model a missing
file). -/
def removeKey {κ α : Type} [BEq κ] (l : List (κ × α)) (k : κ) : List (κ × α) :=
  l.filter (fun e => !(e.1 == k))

theorem lookup_pySet_self {κ α : Type} [BEq κ] [LawfulBEq κ]
    (l : List (κ × α)) (k : κ) (v : α) : (pySet l k v).lookup k = some v := by
  induction l with
  | nil => simp [pySet, List.lookup]
  | cons hd tl ih =>
      by_cases h : hd.1 = k
      · simp [pySet, h, List.lookup]
      · have hb : (hd.1 == k) = false := beq_eq_false_iff_ne.mpr h
        have hb' : (k == hd.1) = false := beq_eq_false_iff_ne.mpr (Ne.symm h)
        simp [pySet, hb, List.lookup, hb', ih]

theorem lookup_pySet_ne {κ α : Type} [BEq κ] [LawfulBEq κ]
    (l : List (κ × α)) (k k' : κ) (v : α) (h : k' ≠ k) :
    (pySet l k v).lookup k' = l.lookup k' := by
  have hbk : (k' == k) = false := beq_eq_false_iff_ne.mpr h
  induction l with
  | nil => simp [pySet, List.lookup, hbk]
  | cons hd tl ih =>
      by_cases hk : hd.1 = k
      · have h1 : (k' == hd.1) = false := by rw [hk]; exact hbk
        simp [pySet, hk, List.lookup, hbk, h1]
      · have hb : (hd.1 == k) = false := beq_eq_false_iff_ne.mpr hk
        cases hb' : k' == hd.1 with
        | true => simp [pySet, hb, List.lookup, hb']
        | false => simp [pySet, hb, List.lookup, hb', ih]

theorem lookup_removeKey_self {κ α : Type} [BEq κ] [LawfulBEq κ]
    (l : List (κ × α)) (k : κ) : (removeKey l k).lookup k = none := by
  induction l with
  | nil => simp [removeKey, List.lookup]
  | cons hd tl ih =>
      by_cases h : hd.1 = k
      · have hb : (hd.1 == k) = true := beq_iff_eq.mpr h
        simpa [removeKey, hb] using ih
      · have hb : (hd.1 == k) = false := beq_eq_false_iff_ne.mpr h
        have hb' : (k == hd.1) = false := beq_eq_false_iff_ne.mpr (Ne.symm h)
        simpa [removeKey, hb, List.lookup, hb'] using ih

/-- `r.get(k)` returning `None` when absent: just `List.lookup`. -/
def rGet (r : Record) (k : String) : Option Val := r.lookup k

/-- `float(r.get("amount", 0))` as used by the aggregation code.  Only
numeric values occur in the collections the claims exercise; any other
shape is read as `0`. -/
def getAmount (r : Record) : Rat :=
  match r.lookup "amount" with
  | some (Val.num q) => q
  | _ => 0

/-- `r.get(k, default)` projected to a string value. -/
def getStr (r : Record) (k : String) (dflt : String) : String :=
  match r.lookup k with
  | some (Val.s str) => str
  | _ => dflt

/-! ## `local_storage.py`: the per-user, per-collection document store

A file is keyed by `(user_id, data_type)` (the source builds the filename
`f"{user_id}_{data_type}.json"` from exactly these two components).
`some records` is a parseable file, `none` a file whose contents
`json.loads` rejects, and an absent key a file that does not exist. -/

abbrev FS := List ((String × String) × Option (List Record))

/-- `_load_data`: return the parsed list; a missing file or a
`json.JSONDecodeError` both yield `[]`. -/
def _load_data (fs : FS) (user_id data_type : String) : List Record :=
  match fs.lookup (user_id, data_type) with
  | none => []
  | some none => []
  | some (some l) => l

/-- `_save_data`: overwrite the file with the given list. -/
def _save_data (fs : FS) (user_id data_type : String) (data : List Record) :
    FS :=
  pySet fs (user_id, data_type) (some data)

/-- `get_incomes`. -/
def get_incomes (fs : FS) (user_id : String) : List Record :=
  _load_data fs user_id "incomes"

/-- `add_income`: stamp `user_id`, default `created_at`, append, persist.
`now` stands for `datetime.now().isoformat()`.  Returns the (mutated)
record together with the new file-system state. -/
def add_income (fs : FS) (user_id : String) (income : Record) (now : String) :
    Record × FS :=
  let incomes := get_incomes fs user_id
  let income := pySet income "user_id" (Val.s user_id)
  let income :=
    if (income.lookup "created_at").isNone then
      pySet income "created_at" (Val.s now)
    else income
  (income, _save_data fs user_id "incomes" (incomes ++ [income]))

/-- The per-element mutation performed inside the `add_incomes_bulk` loop
(and, identically, inside `add_expenses_bulk`). -/
def stampRecord (user_id now : String) (inc : Record) : Record :=
  let inc := pySet inc "user_id" (Val.s user_id)
  if (inc.lookup "created_at").isNone then
    pySet inc "created_at" (Val.s now)
  else inc

/-- `add_incomes_bulk`: no-op on an empty batch, otherwise stamp every
record, extend the collection, persist once, and return the batch size. -/
def add_incomes_bulk (fs : FS) (user_id : String) (new_incomes : List Record)
    (now : String) : Nat × FS :=
  if new_incomes.isEmpty then (0, fs)
  else
    let incomes := get_incomes fs user_id
    let stamped := new_incomes.map (stampRecord user_id now)
    (new_incomes.length,
      _save_data fs user_id "incomes" (incomes ++ stamped))

/-- `i.get("id") != income_id` is false exactly when the stored `id` value
is the string `income_id`. -/
def idMatches (r : Record) (recId : String) : Bool :=
  match r.lookup "id" with
  | some v => valEqStr v recId
  | none => false

/-- `delete_income`: drop every record whose `id` equals the target,
persist only when something was dropped, and report whether it was. -/
def delete_income (fs : FS) (user_id income_id : String) : Bool × FS :=
  let incomes := get_incomes fs user_id
  let remaining := incomes.filter (fun i => !(idMatches i income_id))
  if remaining.length < incomes.length then
    (true, _save_data fs user_id "incomes" remaining)
  else (false, fs)

/-- `get_expenses`. -/
def get_expenses (fs : FS) (user_id : String) : List Record :=
  _load_data fs user_id "expenses"

/-- `add_expense` (same pattern as `add_income`, on the `expenses` file). -/
def add_expense (fs : FS) (user_id : String) (expense : Record)
    (now : String) : Record × FS :=
  let expenses := get_expenses fs user_id
  let expense := pySet expense "user_id" (Val.s user_id)
  let expense :=
    if (expense.lookup "created_at").isNone then
      pySet expense "created_at" (Val.s now)
    else expense
  (expense, _save_data fs user_id "expenses" (expenses ++ [expense]))

/-- `delete_expense` (same pattern as `delete_income`). -/
def delete_expense (fs : FS) (user_id expense_id : String) : Bool × FS :=
  let expenses := get_expenses fs user_id
  let remaining := expenses.filter (fun e => !(idMatches e expense_id))
  if remaining.length < expenses.length then
    (true, _save_data fs user_id "expenses" remaining)
  else (false, fs)

/-- `get_rules`. -/
def get_rules (fs : FS) (user_id : String) : List Record :=
  _load_data fs user_id "rules"

/-- `get_goals`. -/
def get_goals (fs : FS) (user_id : String) : List Record :=
  _load_data fs user_id "goals"

/-- `save_goals`. -/
def save_goals (fs : FS) (user_id : String) (goals : List Record) : FS :=
  _save_data fs user_id "goals" goals

theorem load_save_same (fs : FS) (uid t : String) (l : List Record) :
    _load_data (_save_data fs uid t l) uid t = l := by
  simp [_load_data, _save_data, lookup_pySet_self]

theorem load_save_other (fs : FS) (uid t uid' t' : String) (l : List Record)
    (h : (uid', t') ≠ (uid, t)) :
    _load_data (_save_data fs uid t l) uid' t' = _load_data fs uid' t' := by
  simp [_load_data, _save_data, lookup_pySet_ne _ _ _ _ h]

/-! ## `local_auth.py`: email validation and the credential registry -/

/-- The `VALID_EMAIL_DOMAINS` allow-list, verbatim. -/
def VALID_EMAIL_DOMAINS : List String :=
  ["gmail.com", "googlemail.com",
   "yahoo.com", "yahoo.in", "yahoo.co.in",
   "outlook.com", "hotmail.com", "live.com", "msn.com",
   "icloud.com", "me.com", "mac.com",
   "protonmail.com", "proton.me",
   "aol.com",
   "zoho.com", "zohomail.in",
   "mail.com",
   "gmx.com", "gmx.net",
   "yandex.com", "yandex.ru",
   "rediffmail.com", "rediff.com",
   "in.com",
   "edu", "ac.in", "edu.in"]

/-- The `suspicious_patterns` list.  Every element of the Python list is a
`str` (including the two regex-looking entries), so the `isinstance(pattern,
str)` branch always fires and each entry is used as a plain substring test
against the domain; the `re.match` branch is dead code. -/
def SUSPICIOUS_PATTERNS : List String :=
  ["^[a-z]\x7b10,\x7d\\.com$", "^[a-z]+[0-9]+[a-z]+\\.com$",
   "temp", "fake", "test", "example", "random", "asdf"]

/-- Character class `[a-zA-Z0-9._%+-]` (the local part of the email
regex). -/
def isLocalChar (c : Char) : Bool :=
  c.isAlpha || c.isDigit || c == '.' || c == '_' || c == '%' || c == '+'
    || c == '-'

/-- Character class `[a-zA-Z0-9.-]` (the domain body of the email regex). -/
def isDomainChar (c : Char) : Bool :=
  c.isAlpha || c.isDigit || c == '.' || c == '-'

/-- Split a character list at the first occurrence of `c`:
`some (before, after)` when `c` occurs, `none` otherwise. -/
def splitFirstAt (c : Char) : List Char → Option (List Char × List Char)
  | [] => none
  | x :: xs =>
      if x == c then some ([], xs)
      else (splitFirstAt c xs).map (fun p => (x :: p.1, p.2))

/-- Split a character list at the last occurrence of `c`. -/
def splitLastAt (c : Char) (cs : List Char) : Option (List Char × List Char) :=
  (splitFirstAt c cs.reverse).map (fun p => (p.2.reverse, p.1.reverse))

/-- Full-match semantics of the source's anchored email regex
`^[a-zA-Z0-9._%+-]+@[a-zA-Z0-9.-]+\.[a-zA-Z]\x7b2,\x7d$`.  The local part
must be a nonempty run of local characters up to the first `@`; the rest
must factor as `body.tld` where the tld is the (necessarily last-dot)
suffix of two or more letters and the body is a nonempty run of domain
characters. -/
def emailRegexAccepts (e : String) : Bool :=
  match splitFirstAt '@' e.data with
  | none => false
  | some (loc, rest) =>
      !loc.isEmpty && loc.all isLocalChar &&
        (match splitLastAt '.' rest with
         | none => false
         | some (body, tld) =>
             !body.isEmpty && body.all isDomainChar &&
               decide (2 ≤ tld.length) && tld.all Char.isAlpha)

/-- `email.split('@')[1]` for a string that passed the regex (exactly one
`@`, so this is everything after the first `@`). -/
def domainOf (e : String) : String :=
  match splitFirstAt '@' e.data with
  | none => e
  | some (_, rest) => ⟨rest⟩

/-- `validate_email`: returns `(is_valid, error_message)`. -/
def validate_email (email : String) : Bool × String :=
  let e := pyNormalize email
  if !emailRegexAccepts e then (false, "Invalid email format")
  else
    let domain := domainOf e
    let domain_valid :=
      VALID_EMAIL_DOMAINS.contains domain ||
        VALID_EMAIL_DOMAINS.any
          (fun vd => pyEndsWith domain ("." ++ vd) || domain == vd)
    let domain_valid :=
      domain_valid &&
        !(SUSPICIOUS_PATTERNS.any (fun p => pyContains domain p))
    if !domain_valid then
      (false,
       "Please use a valid email provider (gmail.com, yahoo.com, outlook.com, etc.)")
    else (true, "")

/-- A stored account (`users[email]` in `users.json`).  The signup path
never writes an `is_admin` key; readers use `user.get("is_admin", False)`,
which the default-`false` field models. -/
structure Account where
  id : String
  email : String
  full_name : String
  password_hash : String
  password_salt : String
  created_at : String
  is_new_account : Bool
  is_admin : Bool := false
deriving DecidableEq

/-- The two persisted registries: `users.json` (canonical email → account)
and `tokens.json` (bearer token → email). -/
structure AuthState where
  users : List (String × Account)
  tokens : List (String × String)
deriving DecidableEq

/-- The abstracted PBKDF2-SHA256 password-hash primitive: a deterministic
function of password and salt. -/
abbrev Hash := String → String → String

/-- `_hash_password` with an explicit salt (the source draws a random salt
when none is supplied; the salt is an explicit parameter here). -/
def _hash_password (H : Hash) (password salt : String) : String × String :=
  (H password salt, salt)

/-- `register_local_token` from `auth.py`: append/overwrite the
token → email mapping. -/
def register_local_token (tokens : List (String × String))
    (token email : String) : List (String × String) :=
  pySet tokens token email

/-- The `user` object embedded in a signup response. -/
structure SignupUser where
  id : String
  email : String
  full_name : String
  isNewAccount : Bool
deriving DecidableEq

/-- A successful signup response. -/
structure SignupResult where
  access_token : String
  user : SignupUser
  message : String
deriving DecidableEq

/-- `signup(email, password, full_name)`.  `salt`, `user_id`, `token` and
`now` are the random/clock values drawn inside the source.  `ValueError`
becomes `Except.error` carrying the exception message; on error the
persisted state is unchanged (the source raises before any write). -/
def signup (H : Hash) (st : AuthState) (email password full_name : String)
    (salt user_id token now : String) :
    Except String SignupResult × AuthState :=
  let e := pyNormalize email
  let v := validate_email e
  if !v.1 then (.error v.2, st)
  else if password.length < 6 then
    (.error "Password must be at least 6 characters", st)
  else if full_name == "" || (pyStrip full_name).length < 2 then
    (.error "Please enter your full name", st)
  else if (st.users.lookup e).isSome then
    (.error "An account with this email already exists", st)
  else
    let hp := _hash_password H password salt
    let tokens := register_local_token st.tokens token e
    let acct : Account :=
      { id := user_id, email := e, full_name := pyStrip full_name,
        password_hash := hp.1, password_salt := hp.2, created_at := now,
        is_new_account := true }
    let users := pySet st.users e acct
    (.ok { access_token := token,
           user := { id := user_id, email := e,
                     full_name := pyStrip full_name, isNewAccount := true },
           message := "Account created successfully" },
     { users := users, tokens := tokens })

/-- The `user` object embedded in a login response. -/
structure LoginUser where
  id : String
  email : String
  full_name : String
  isNewAccount : Bool
  isAdmin : Bool
deriving DecidableEq

/-- A successful login response. -/
structure LoginResult where
  access_token : String
  user : LoginUser
deriving DecidableEq

/-- `login(email, password)`.  `token` is the fresh token drawn inside the
source.  Unknown email and wrong password raise the same
`"Invalid email or password"`; only a successful login writes state (the
new token registration). -/
def login (H : Hash) (st : AuthState) (email password token : String) :
    Except String LoginResult × AuthState :=
  let e := pyNormalize email
  match st.users.lookup e with
  | none => (.error "Invalid email or password", st)
  | some user =>
      let hp := _hash_password H password user.password_salt
      if hp.1 ≠ user.password_hash then
        (.error "Invalid email or password", st)
      else
        let tokens := register_local_token st.tokens token e
        (.ok { access_token := token,
               user := { id := user.id, email := user.email,
                         full_name := user.full_name,
                         isNewAccount := user.is_new_account,
                         isAdmin := user.is_admin } },
         { st with tokens := tokens })

/-- `mark_account_active(email)`: clear the `is_new_account` flag if the
account exists.  Defined in the source but never called by any route. -/
def mark_account_active (st : AuthState) (email : String) : AuthState :=
  let e := pyNormalize email
  match st.users.lookup e with
  | some u =>
      { st with users := pySet st.users e { u with is_new_account := false } }
  | none => st

/-! ## `auth.py`: the bearer-token resolver (`get_current_user`), local
mode (`USE_LOCAL_AUTH` true, i.e. no Supabase configured). -/

/-- The identity object handed to route handlers.  The source's
`DEMO_USER` dict carries no `is_new_account`/`is_admin` keys and every
consumer reads them with `.get(_, False)`, which the `false` fields
model. -/
structure Identity where
  id : String
  email : String
  full_name : String
  is_demo : Bool
  is_new_account : Bool
  is_admin : Bool
deriving DecidableEq

/-- The hard-coded demo identity. -/
def DEMO_USER : Identity :=
  { id := "demo-user-001", email := "rahul@demo.com",
    full_name := "Rahul Kumar", is_demo := true,
    is_new_account := false, is_admin := false }

/-- `get_current_user` in local mode: `none` models a request with no
bearer credential; `HTTPException(401, detail)` becomes `Except.error
detail`. -/
def get_current_user (st : AuthState) (credentials : Option String) :
    Except String Identity :=
  match credentials with
  | none => .error "Not authenticated"
  | some token =>
      if token == "demo-token" then .ok DEMO_USER
      else if 20 < token.length then
        match st.tokens.lookup token with
        | some email =>
            match st.users.lookup email with
            | some u =>
                .ok { id := u.id, email := email, full_name := u.full_name,
                      is_demo := false, is_new_account := u.is_new_account,
                      is_admin := u.is_admin }
            | none => .error "Invalid or expired token"
        | none => .error "Invalid or expired token"
      else .error "Invalid token format"

/-! ## `routes/incomes.py` and `routes/goals.py` (local-mode paths) -/

/-- The record literal built by `create_income` (`routes/incomes.py`):
`{"id": uuid4, "user_id": user["id"], **body.model_dump(mode="json"),
"date": body.date.isoformat(), "created_at": now}`.  `body` is the list of
already-validated request fields; `rec_id`, `date_iso` and `now` are the
uuid, the serialised date and the clock reading. -/
def incomeRecordOf (user_id rec_id : String) (body : Record)
    (date_iso now : String) : Record :=
  pySet
    (pySet
      (body.foldl (fun r kv => pySet r kv.1 kv.2)
        [("id", Val.s rec_id), ("user_id", Val.s user_id)])
      "date" (Val.s date_iso))
    "created_at" (Val.s now)

/-- `create_income`: build the record and hand it to
`local_storage.add_income`.  Note: the handler performs no call to
`mark_account_active` (or any other credential-registry update). -/
def create_income (fs : FS) (user_id rec_id : String) (body : Record)
    (date_iso now : String) : Record × FS :=
  add_income fs user_id (incomeRecordOf user_id rec_id body date_iso now) now

/-- `float(g["current_amount"])`-style numeric read with the Python
semantics restricted to numeric values (the only shape the goal routes
store there). -/
def getNum (r : Record) (k : String) : Rat :=
  match r.lookup k with
  | some (Val.num q) => q
  | _ => 0

/-- The in-place mutation `g["current_amount"] = min(g["current_amount"] +
body.amount, g["target_amount"])` performed by `add_money`. -/
def goalAddMoney (g : Record) (amount : Rat) : Record :=
  pySet g "current_amount"
    (Val.num (min (getNum g "current_amount" + amount)
      (getNum g "target_amount")))

/-- The `for g in goals` loop of `add_money`: update the first goal whose
`id` equals `goal_id` and return it with the updated list; `none` when no
goal matches. -/
def updateGoalList (goal_id : String) (amount : Rat) :
    List Record → Option (Record × List Record)
  | [] => none
  | g :: rest =>
      if idMatches g goal_id then
        let g' := goalAddMoney g amount
        some (g', g' :: rest)
      else
        match updateGoalList goal_id amount rest with
        | some (r, rest') => some (r, g :: rest')
        | none => none

/-- `add_money` (`routes/goals.py`, local path): load the goals, clamp-add
into the first matching goal, persist, return it; 404 when absent. -/
def add_money (fs : FS) (user_id goal_id : String) (amount : Rat) :
    Except String (Record × FS) :=
  match updateGoalList goal_id amount (get_goals fs user_id) with
  | some (g, goals') => .ok (g, save_goals fs user_id goals')
  | none => .error "Goal not found"

/-! ## `routes/admin.py`: the aggregation reader (local mode)

`hash(user_id)` is CPython's per-process randomised string hash; it enters
the embedding as the parameter `pyHash`.  `datetime.now() - timedelta(...)`
readings enter as the ISO-string parameters `thirty_days_ago` /
`ninety_days_ago`.  `round(x, 2)` is modelled as exact rational rounding to
two decimal places (the claims settled here never depend on IEEE-754 tie
behaviour). -/

/-- A row of `get_all_users_data` (local branch): id, email, created_at. -/
structure UserRow where
  id : String
  email : String
  created_at : String
deriving DecidableEq

/-- `get_all_users_data`, local branch: project the users registry. -/
def get_all_users_data (st : AuthState) : List UserRow :=
  st.users.map
    (fun p => { id := p.2.id, email := p.1, created_at := p.2.created_at })

/-- Decimal padding `f"{n:04d}"` for `n < 10000`. -/
def pad4 (n : Nat) : String :=
  let s := toString n
  ⟨List.replicate (4 - s.length) '0'⟩ ++ s

/-- `anonymize_user_id`: `f"USER_{hash(user_id) % 10000:04d}"`. -/
def anonymize_user_id (pyHash : String → Nat) (user_id : String) : String :=
  "USER_" ++ pad4 (pyHash user_id % 10000)

/-- `round(x, 2)` on exact rationals. -/
def round2 (q : Rat) : Rat := ((round (q * 100) : ℤ) : Rat) / 100

/-- `sum(float(r.get("amount", 0)) for r in l)`. -/
def sumAmounts (l : List Record) : Rat :=
  l.foldl (fun acc r => acc + getAmount r) 0

/-- `defaultdict(int)` increment: `m[k] += 1` (insertion order kept, new
keys appended). -/
def bumpCount (l : List (String × Nat)) (k : String) : List (String × Nat) :=
  pySet l k ((l.lookup k).getD 0 + 1)

/-- `defaultdict(float)` accumulation: `m[k] += a`. -/
def addRatAt (l : List (String × Rat)) (k : String) (a : Rat) :
    List (String × Rat) :=
  pySet l k ((l.lookup k).getD 0 + a)

/-- `rule.get("condition", \x7b\x7d).get("field", "unknown")` for the
object-valued conditions the rules routes store. -/
def condField (r : Record) : String :=
  match r.lookup "condition" with
  | some (Val.obj fields) =>
      match fields.lookup "field" with
      | some (Val.s str) => str
      | _ => "unknown"
  | _ => "unknown"

/-- `inc.get("date", inc.get("created_at", ""))[:7]` for string-valued
dates. -/
def monthlyIncomeKey (inc : Record) : String :=
  match inc.lookup "date" with
  | some (Val.s d) => pyTake 7 d
  | some _ => ""
  | none =>
      match inc.lookup "created_at" with
      | some (Val.s c) => pyTake 7 c
      | _ => ""

/-- Insert into a key-sorted association list (`sorted(monthly.items())`
for the unique keys a dict holds). -/
def insertSortedKey (x : String × Rat) :
    List (String × Rat) → List (String × Rat)
  | [] => [x]
  | y :: ys =>
      if pyStrLt x.1 y.1 then x :: y :: ys else y :: insertSortedKey x ys

/-- `sorted(l.items())` by key. -/
def sortByKey (l : List (String × Rat)) : List (String × Rat) :=
  l.foldr insertSortedKey []

/-- One `low_income_alerts` entry. -/
structure LowIncomeAlert where
  user_id : String
  avg_monthly_income : Rat
  period : String
  severity : String
deriving DecidableEq

/-- One `large_transactions` entry. -/
structure LargeTransaction where
  user_id : String
  amount : Rat
  category : String
  date : String
  description : String
deriving DecidableEq

/-- One `income_trends` entry. -/
structure IncomeTrend where
  user_id : String
  monthly_data : List (String × Rat)
deriving DecidableEq

/-- The `summary` block of the dashboard response. -/
structure DashSummary where
  total_users : Nat
  active_users_30d : Nat
  total_income : Rat
  total_expenses : Rat
  total_savings : Rat
deriving DecidableEq

/-- The full `/admin/dashboard` response. -/
structure Dashboard where
  summary : DashSummary
  income_trends : List IncomeTrend
  low_income_alerts : List LowIncomeAlert
  large_transactions : List LargeTransaction
  rule_usage : List (String × Nat)
  timestamp : String
deriving DecidableEq

/-- Accumulator of the main `for user in users` loop. -/
structure DashAcc where
  total_income : Rat
  total_expenses : Rat
  active_users_30d : Nat
  low_income_alerts : List LowIncomeAlert
  large_transactions : List LargeTransaction
  rule_usage : List (String × Nat)

/-- One iteration of the main dashboard loop.  `load` is the per-account
collection reader (`get_user_incomes` / `get_user_expenses` /
`get_user_rules`, which in local mode are `_load_data` on the respective
collection). -/
def dashStep (load : String → String → List Record) (pyHash : String → Nat)
    (thirty_days_ago ninety_days_ago : String) (acc : DashAcc)
    (u : UserRow) : DashAcc :=
  let user_id := u.id
  let anon_id := anonymize_user_id pyHash user_id
  let incomes := load user_id "incomes"
  let expenses := load user_id "expenses"
  let rules := load user_id "rules"
  let user_income_total := sumAmounts incomes
  let user_expense_total := sumAmounts expenses
  let recent_activity :=
    incomes.any
        (fun inc => pyStrGt (getStr inc "created_at" "") thirty_days_ago) ||
      expenses.any
        (fun ex => pyStrGt (getStr ex "created_at" "") thirty_days_ago)
  let recent_incomes := incomes.filter (fun inc =>
    pyStrGt (getStr inc "created_at" "") ninety_days_ago ||
      pyStrGt (getStr inc "date" "") (pyTake 10 ninety_days_ago))
  let low_income_alerts :=
    if !recent_incomes.isEmpty then
      let avg_monthly_income := sumAmounts recent_incomes / 3
      if avg_monthly_income < 15000 then
        acc.low_income_alerts ++
          [{ user_id := anon_id,
             avg_monthly_income := round2 avg_monthly_income,
             period := "Last 3 months",
             severity :=
               if avg_monthly_income < 10000 then "high" else "medium" }]
      else acc.low_income_alerts
    else acc.low_income_alerts
  let large_transactions :=
    acc.large_transactions ++
      (expenses.filter (fun ex => 50000 < getAmount ex)).map (fun ex =>
        { user_id := anon_id, amount := getAmount ex,
          category := getStr ex "category" "unknown",
          date := getStr ex "date" "unknown",
          description := pyTake 50 (getStr ex "description" "") })
  let rule_usage :=
    rules.foldl (fun m r => bumpCount m (condField r)) acc.rule_usage
  { total_income := acc.total_income + user_income_total,
    total_expenses := acc.total_expenses + user_expense_total,
    active_users_30d :=
      acc.active_users_30d + (if recent_activity then 1 else 0),
    low_income_alerts := low_income_alerts,
    large_transactions := large_transactions,
    rule_usage := rule_usage }

/-- The `income_trends` pass: first 10 users, monthly income grouped by
`date[:7]`, sorted by month, last 6 kept. -/
def incomeTrendsOf (load : String → String → List Record)
    (pyHash : String → Nat) (users : List UserRow) : List IncomeTrend :=
  (users.take 10).foldl (fun acc u =>
    let incomes := load u.id "incomes"
    let monthly := incomes.foldl
      (fun m inc => addRatAt m (monthlyIncomeKey inc) (getAmount inc)) []
    if !monthly.isEmpty then
      acc ++ [{ user_id := anonymize_user_id pyHash u.id,
                monthly_data := pyLastN 6 (sortByKey monthly) }]
    else acc) []

/-- Assemble the dashboard from an abstract per-account reader. -/
def dashboardFrom (load : String → String → List Record)
    (pyHash : String → Nat) (users : List UserRow)
    (thirty_days_ago ninety_days_ago now : String) : Dashboard :=
  let acc := users.foldl (dashStep load pyHash thirty_days_ago ninety_days_ago)
    { total_income := 0, total_expenses := 0, active_users_30d := 0,
      low_income_alerts := [], large_transactions := [], rule_usage := [] }
  { summary := { total_users := users.length,
                 active_users_30d := acc.active_users_30d,
                 total_income := round2 acc.total_income,
                 total_expenses := round2 acc.total_expenses,
                 total_savings :=
                   round2 (acc.total_income - acc.total_expenses) },
    income_trends := incomeTrendsOf load pyHash users,
    low_income_alerts := acc.low_income_alerts.take 10,
    large_transactions := acc.large_transactions.take 20,
    rule_usage := acc.rule_usage,
    timestamp := now }

/-- `get_admin_dashboard` in local mode: read the account list from the
credential registry, then aggregate every account's collections read
through `_load_data`. -/
def get_admin_dashboard (st : AuthState) (fs : FS) (pyHash : String → Nat)
    (thirty_days_ago ninety_days_ago now : String) : Dashboard :=
  dashboardFrom (_load_data fs) pyHash (get_all_users_data st)
    thirty_days_ago ninety_days_ago now

/-- Replace every unreadable (unparseable) collection file by an empty,
readable one. -/
def cleanseFS (fs : FS) : FS := fs.map (fun e => (e.1, some (e.2.getD [])))

theorem load_cleanse (fs : FS) (uid t : String) :
    _load_data (cleanseFS fs) uid t = _load_data fs uid t := by
  induction fs with
  | nil => rfl
  | cons hd tl ih =>
      obtain ⟨k, v⟩ := hd
      simp only [cleanseFS, List.map] at ih ⊢
      unfold _load_data at ih ⊢
      cases h : ((uid, t) == k) with
      | true => cases v <;> simp [List.lookup, h]
      | false => simpa [List.lookup, h] using ih

/-! ## Supporting lemmas about the record-stamping step -/

theorem add_income_fst (fs : FS) (uid : String) (r : Record) (now : String) :
    (add_income fs uid r now).1 = stampRecord uid now r := rfl

theorem add_income_snd (fs : FS) (uid : String) (r : Record) (now : String) :
    (add_income fs uid r now).2
      = _save_data fs uid "incomes"
          (get_incomes fs uid ++ [stampRecord uid now r]) := rfl

theorem add_expense_fst (fs : FS) (uid : String) (r : Record) (now : String) :
    (add_expense fs uid r now).1 = stampRecord uid now r := rfl

theorem add_expense_snd (fs : FS) (uid : String) (r : Record) (now : String) :
    (add_expense fs uid r now).2
      = _save_data fs uid "expenses"
          (get_expenses fs uid ++ [stampRecord uid now r]) := rfl

theorem lookup_stampRecord_ne (uid now : String) (r : Record) (k : String)
    (h1 : k ≠ "user_id") (h2 : k ≠ "created_at") :
    (stampRecord uid now r).lookup k = r.lookup k := by
  unfold stampRecord
  by_cases hc :
      ((pySet r "user_id" (Val.s uid)).lookup "created_at").isNone = true
  · rw [if_pos hc, lookup_pySet_ne _ _ _ _ h2, lookup_pySet_ne _ _ _ _ h1]
  · rw [if_neg hc, lookup_pySet_ne _ _ _ _ h1]

theorem lookup_stampRecord_user_id (uid now : String) (r : Record) :
    (stampRecord uid now r).lookup "user_id" = some (Val.s uid) := by
  unfold stampRecord
  by_cases hc :
      ((pySet r "user_id" (Val.s uid)).lookup "created_at").isNone = true
  · rw [if_pos hc,
      lookup_pySet_ne _ _ _ _ (by decide : ("user_id" : String) ≠ "created_at"),
      lookup_pySet_self]
  · rw [if_neg hc, lookup_pySet_self]

theorem lookup_stampRecord_created_at (uid now : String) (r : Record) :
    ((stampRecord uid now r).lookup "created_at").isSome = true ∧
      (r.lookup "created_at" = none →
        (stampRecord uid now r).lookup "created_at" = some (Val.s now)) := by
  unfold stampRecord
  have hkeep : (pySet r "user_id" (Val.s uid)).lookup "created_at"
      = r.lookup "created_at" :=
    lookup_pySet_ne _ _ _ _ (by decide : ("created_at" : String) ≠ "user_id")
  by_cases hc :
      ((pySet r "user_id" (Val.s uid)).lookup "created_at").isNone = true
  · rw [if_pos hc]
    exact ⟨by rw [lookup_pySet_self]; rfl, fun _ => lookup_pySet_self _ _ _⟩
  · rw [if_neg hc]
    refine ⟨by simpa [Option.isNone_iff_eq_none, Option.isSome_iff_ne_none]
      using hc, fun h => ?_⟩
    rw [hkeep, h] at hc
    simp at hc

/-- C2.  The round trip through the income and expense stores: listing
right after an append returns the previous sequence with exactly the
stamped record appended at the end (insertion order, no re-sorting), and
the appended record agrees with the input on every key other than the
server-managed `id`, `created_at`, `user_id`. -/
theorem C2_append_then_list_round_trip (fs : FS) (uid : String) (r : Record)
    (now : String) (k : String) :
    get_incomes (add_income fs uid r now).2 uid
        = get_incomes fs uid ++ [(add_income fs uid r now).1] ∧
      get_expenses (add_expense fs uid r now).2 uid
        = get_expenses fs uid ++ [(add_expense fs uid r now).1] ∧
      (k ≠ "id" → k ≠ "created_at" → k ≠ "user_id" →
        (add_income fs uid r now).1.lookup k = r.lookup k ∧
          (add_expense fs uid r now).1.lookup k = r.lookup k) := by
  refine ⟨?_, ?_, fun _ h2 h3 => ?_⟩
  · rw [add_income_snd, add_income_fst]
    exact load_save_same fs uid "incomes" _
  · rw [add_expense_snd, add_expense_fst]
    exact load_save_same fs uid "expenses" _
  · rw [add_income_fst, add_expense_fst]
    exact ⟨lookup_stampRecord_ne uid now r k h3 h2,
      lookup_stampRecord_ne uid now r k h3 h2⟩

/-- Witness for C2 at a concrete store state, record and key. -/
theorem C2_append_then_list_round_trip_witness :
    get_incomes
        (add_income [] "u1" [("amount", Val.num 500)] "2025-01-02").2 "u1"
      = get_incomes ([] : FS) "u1" ++
          [(add_income [] "u1" [("amount", Val.num 500)] "2025-01-02").1] ∧
    (add_income [] "u1" [("amount", Val.num 500)] "2025-01-02").1.lookup
        "amount"
      = ([("amount", Val.num 500)] : Record).lookup "amount" :=
  ⟨(C2_append_then_list_round_trip [] "u1" [("amount", Val.num 500)]
      "2025-01-02" "amount").1,
   ((C2_append_then_list_round_trip [] "u1" [("amount", Val.num 500)]
      "2025-01-02" "amount").2.2 (by decide) (by decide) (by decide)).1⟩

/-- C6, counterexample.  Appending a record that carries no `id` field
persists and returns it still without an `id`: `add_income` (and the bulk
variant) never assigns `id`, contradicting the claim that every record
returned by append has `id` present. -/
theorem C6_no_id_assigned_counterexample :
    ((add_income [] "u1" [("amount", Val.num 500)] "2025-01-02T00:00:00").1
        ).lookup "id" = none ∧
      ((stampRecord "u1" "2025-01-02T00:00:00"
          [("amount", Val.num 500)]).lookup "id") = none :=
  ⟨rfl, rfl⟩

/-- C6, amended.  The append operations assign `created_at` when it is
absent and always stamp `user_id`, so those two fields are present on
every appended record; `id`, however, is never assigned by the store — the
appended record's `id` is exactly whatever the caller supplied. -/
theorem C6_append_assigns_created_at_not_id (fs : FS) (uid : String)
    (r : Record) (now : String) :
    ((add_income fs uid r now).1.lookup "created_at").isSome = true ∧
      (r.lookup "created_at" = none →
        (add_income fs uid r now).1.lookup "created_at"
          = some (Val.s now)) ∧
      ((add_income fs uid r now).1.lookup "user_id").isSome = true ∧
      (add_income fs uid r now).1.lookup "id" = r.lookup "id" ∧
      ((add_expense fs uid r now).1.lookup "created_at").isSome = true ∧
      (add_expense fs uid r now).1.lookup "id" = r.lookup "id" ∧
      ((stampRecord uid now r).lookup "created_at").isSome = true ∧
      (stampRecord uid now r).lookup "id" = r.lookup "id" := by
  rw [add_income_fst, add_expense_fst]
  obtain ⟨hsome, hassign⟩ := lookup_stampRecord_created_at uid now r
  have hid : (stampRecord uid now r).lookup "id" = r.lookup "id" :=
    lookup_stampRecord_ne uid now r "id" (by decide) (by decide)
  exact ⟨hsome, hassign,
    by rw [lookup_stampRecord_user_id]; rfl,
    hid, hsome, hid, hsome, hid⟩

/-- Witness for C6 (amended) at a concrete record lacking `created_at`. -/
theorem C6_append_assigns_created_at_not_id_witness :
    (add_income [] "u1" [("amount", Val.num 500)] "2025-01-02").1.lookup
        "created_at" = some (Val.s "2025-01-02") ∧
      (add_income [] "u1" [("amount", Val.num 500)] "2025-01-02").1.lookup
        "id" = ([("amount", Val.num 500)] : Record).lookup "id" :=
  ⟨(C6_append_assigns_created_at_not_id [] "u1" [("amount", Val.num 500)]
      "2025-01-02").2.1 rfl,
   (C6_append_assigns_created_at_not_id [] "u1" [("amount", Val.num 500)]
      "2025-01-02").2.2.2.1⟩

/-- C10.  The append paths unconditionally overwrite `user_id` with the
partition key: the record returned (and stored) by `add_income` /
`add_expense`, and every record stamped by the bulk path, carries
`user_id = uid` no matter what `user_id` value the input carried; a
non-empty bulk append persists exactly the stamped batch after the
existing records. -/
theorem C10_user_id_overwritten (fs : FS) (uid : String) (r : Record)
    (rs : List Record) (now : String) :
    (add_income fs uid r now).1.lookup "user_id" = some (Val.s uid) ∧
      (add_expense fs uid r now).1.lookup "user_id" = some (Val.s uid) ∧
      (∀ x ∈ rs, (stampRecord uid now x).lookup "user_id"
        = some (Val.s uid)) ∧
      (rs ≠ [] →
        get_incomes (add_incomes_bulk fs uid rs now).2 uid
          = get_incomes fs uid ++ rs.map (stampRecord uid now)) := by
  refine ⟨?_, ?_, fun x _ => lookup_stampRecord_user_id uid now x,
    fun hne => ?_⟩
  · rw [add_income_fst]; exact lookup_stampRecord_user_id uid now r
  · rw [add_expense_fst]; exact lookup_stampRecord_user_id uid now r
  · have hemp : rs.isEmpty = false := by
      cases rs with
      | nil => exact absurd rfl hne
      | cons a l => rfl
    unfold add_incomes_bulk
    rw [hemp]
    simpa using load_save_same fs uid "incomes" _

/-- Witness for C10: a record claiming another user's id is re-stamped. -/
theorem C10_user_id_overwritten_witness :
    (add_income [] "u1" [("user_id", Val.s "intruder")] "2025-01-02").1.lookup
        "user_id" = some (Val.s "u1") ∧
      (stampRecord "u1" "2025-01-02"
          [("user_id", Val.s "intruder")]).lookup "user_id"
        = some (Val.s "u1") ∧
      get_incomes
          (add_incomes_bulk [] "u1" [[("user_id", Val.s "intruder")]]
            "2025-01-02").2 "u1"
        = get_incomes ([] : FS) "u1" ++
            [stampRecord "u1" "2025-01-02" [("user_id", Val.s "intruder")]] :=
  ⟨(C10_user_id_overwritten [] "u1" [("user_id", Val.s "intruder")]
      [[("user_id", Val.s "intruder")]] "2025-01-02").1,
   (C10_user_id_overwritten [] "u1" [("user_id", Val.s "intruder")]
      [[("user_id", Val.s "intruder")]] "2025-01-02").2.2.1
     [("user_id", Val.s "intruder")] (by simp),
   (C10_user_id_overwritten [] "u1" [("user_id", Val.s "intruder")]
      [[("user_id", Val.s "intruder")]] "2025-01-02").2.2.2 (by simp)⟩

/-! ## Supporting lemmas for deletion -/

theorem length_filter_not_add {α : Type} (l : List α) (p : α → Bool) :
    (l.filter (fun x => !(p x))).length + (l.filter p).length = l.length := by
  induction l with
  | nil => rfl
  | cons hd tl ih =>
      by_cases h : p hd = true <;> simp [h] <;> omega

theorem filter_not_idem {α : Type} (l : List α) (p : α → Bool) :
    (l.filter (fun x => !(p x))).filter (fun x => !(p x))
      = l.filter (fun x => !(p x)) := by
  rw [List.filter_filter]
  congr 1
  funext x
  cases p x <;> rfl

/-- C5.  Under the per-partition id-uniqueness invariant (exactly one
record carries the target id), `delete_income` / `delete_expense` return
`true` and remove exactly that one record; the immediately repeated call
returns `false` and, whenever a delete returns `false`, the store is left
untouched. -/
theorem C5_delete_true_exactly_once (fs : FS) (uid i j : String)
    (hinc : ((get_incomes fs uid).filter
      (fun r => idMatches r i)).length = 1)
    (hexp : ((get_expenses fs uid).filter
      (fun r => idMatches r j)).length = 1) :
    (delete_income fs uid i).1 = true ∧
      get_incomes (delete_income fs uid i).2 uid
        = (get_incomes fs uid).filter (fun r => !(idMatches r i)) ∧
      (get_incomes (delete_income fs uid i).2 uid).length + 1
        = (get_incomes fs uid).length ∧
      delete_income (delete_income fs uid i).2 uid i
        = (false, (delete_income fs uid i).2) ∧
      (delete_expense fs uid j).1 = true ∧
      get_expenses (delete_expense fs uid j).2 uid
        = (get_expenses fs uid).filter (fun r => !(idMatches r j)) ∧
      (get_expenses (delete_expense fs uid j).2 uid).length + 1
        = (get_expenses fs uid).length ∧
      delete_expense (delete_expense fs uid j).2 uid j
        = (false, (delete_expense fs uid j).2) ∧
      (∀ fs' : FS, (delete_income fs' uid i).1 = false →
        (delete_income fs' uid i).2 = fs') ∧
      (∀ fs' : FS, (delete_expense fs' uid j).1 = false →
        (delete_expense fs' uid j).2 = fs') := by
  have hleni : ((get_incomes fs uid).filter
      (fun r => !(idMatches r i))).length + 1 = (get_incomes fs uid).length := by
    have := length_filter_not_add (get_incomes fs uid)
      (fun r => idMatches r i)
    omega
  have hlti : ((get_incomes fs uid).filter
      (fun r => !(idMatches r i))).length < (get_incomes fs uid).length := by
    omega
  have hdi : delete_income fs uid i
      = (true, _save_data fs uid "incomes"
          ((get_incomes fs uid).filter (fun r => !(idMatches r i)))) := by
    unfold delete_income
    rw [if_pos hlti]
  have hlisti : get_incomes (delete_income fs uid i).2 uid
      = (get_incomes fs uid).filter (fun r => !(idMatches r i)) := by
    rw [hdi]
    exact load_save_same fs uid "incomes" _
  have hlenj : ((get_expenses fs uid).filter
      (fun r => !(idMatches r j))).length + 1
        = (get_expenses fs uid).length := by
    have := length_filter_not_add (get_expenses fs uid)
      (fun r => idMatches r j)
    omega
  have hltj : ((get_expenses fs uid).filter
      (fun r => !(idMatches r j))).length < (get_expenses fs uid).length := by
    omega
  have hdj : delete_expense fs uid j
      = (true, _save_data fs uid "expenses"
          ((get_expenses fs uid).filter (fun r => !(idMatches r j)))) := by
    unfold delete_expense
    rw [if_pos hltj]
  have hlistj : get_expenses (delete_expense fs uid j).2 uid
      = (get_expenses fs uid).filter (fun r => !(idMatches r j)) := by
    rw [hdj]
    exact load_save_same fs uid "expenses" _
  refine ⟨by rw [hdi], hlisti, by rw [hlisti]; exact hleni, ?_,
    by rw [hdj], hlistj, by rw [hlistj]; exact hlenj, ?_,
    fun fs' hfalse => ?_, fun fs' hfalse => ?_⟩
  · generalize hfs2 : (delete_income fs uid i).2 = fs2 at hlisti ⊢
    unfold delete_income
    simp only [hlisti, filter_not_idem, lt_irrefl, if_false]
  · generalize hfs2 : (delete_expense fs uid j).2 = fs2 at hlistj ⊢
    unfold delete_expense
    simp only [hlistj, filter_not_idem, lt_irrefl, if_false]
  · by_cases hc : ((get_incomes fs' uid).filter
        (fun r => !(idMatches r i))).length < (get_incomes fs' uid).length
    · exfalso
      unfold delete_income at hfalse
      rw [if_pos hc] at hfalse
      exact Bool.true_eq_false ▸ hfalse
    · unfold delete_income
      rw [if_neg hc]
  · by_cases hc : ((get_expenses fs' uid).filter
        (fun r => !(idMatches r j))).length < (get_expenses fs' uid).length
    · exfalso
      unfold delete_expense at hfalse
      rw [if_pos hc] at hfalse
      exact Bool.true_eq_false ▸ hfalse
    · unfold delete_expense
      rw [if_neg hc]

/-- Witness for C5 at a concrete two-record store. -/
theorem C5_delete_true_exactly_once_witness :
    (delete_income
        [(("u1", "incomes"),
          some [[("id", Val.s "i1")], [("id", Val.s "i2")]]),
         (("u1", "expenses"), some [[("id", Val.s "e1")]])] "u1" "i1").1
      = true ∧
    (delete_expense
        [(("u1", "incomes"),
          some [[("id", Val.s "i1")], [("id", Val.s "i2")]]),
         (("u1", "expenses"), some [[("id", Val.s "e1")]])] "u1" "e1").1
      = true :=
  ⟨(C5_delete_true_exactly_once
      [(("u1", "incomes"),
        some [[("id", Val.s "i1")], [("id", Val.s "i2")]]),
       (("u1", "expenses"), some [[("id", Val.s "e1")]])] "u1" "i1" "e1"
      rfl rfl).1,
   (C5_delete_true_exactly_once
      [(("u1", "incomes"),
        some [[("id", Val.s "i1")], [("id", Val.s "i2")]]),
       (("u1", "expenses"), some [[("id", Val.s "e1")]])] "u1" "i1" "e1"
      rfl rfl).2.2.2.2.1⟩

/-- C3.  `login` with an unknown email and `login` with a wrong password
produce the very same result value — the literal pair
`(error "Invalid email or password", unchanged state)` — so the response
reveals nothing about whether the email is registered. -/
theorem C3_login_enumeration_resistance (H : Hash) (st : AuthState)
    (e p t : String) :
    (st.users.lookup (pyNormalize e) = none →
      login H st e p t = (.error "Invalid email or password", st)) ∧
    (∀ a : Account, st.users.lookup (pyNormalize e) = some a →
      H p a.password_salt ≠ a.password_hash →
      login H st e p t = (.error "Invalid email or password", st)) := by
  constructor
  · intro h
    simp only [login]
    rw [h]
  · intro a h hw
    simp only [login]
    rw [h]
    simp only [_hash_password]
    rw [if_pos hw]

/-- Witness for C3: unknown email on the empty registry, and wrong
password on a one-account registry, both yield the same error pair. -/
theorem C3_login_enumeration_resistance_witness :
    login (fun p s => p ++ ":" ++ s) ⟨[], []⟩ "nobody@gmail.com" "pw" "tok"
        = (.error "Invalid email or password", ⟨[], []⟩) ∧
      login (fun p s => p ++ ":" ++ s)
          ⟨[("a@gmail.com",
             { id := "u1", email := "a@gmail.com", full_name := "A B",
               password_hash := "right:salt", password_salt := "salt",
               created_at := "2025-01-01", is_new_account := true })], []⟩
          "a@gmail.com" "wrong" "tok"
        = (.error "Invalid email or password",
           ⟨[("a@gmail.com",
             { id := "u1", email := "a@gmail.com", full_name := "A B",
               password_hash := "right:salt", password_salt := "salt",
               created_at := "2025-01-01", is_new_account := true })], []⟩) :=
  ⟨(C3_login_enumeration_resistance (fun p s => p ++ ":" ++ s) ⟨[], []⟩
      "nobody@gmail.com" "pw" "tok").1 rfl,
   (C3_login_enumeration_resistance (fun p s => p ++ ":" ++ s)
      ⟨[("a@gmail.com",
        { id := "u1", email := "a@gmail.com", full_name := "A B",
          password_hash := "right:salt", password_salt := "salt",
          created_at := "2025-01-01", is_new_account := true })], []⟩
      "a@gmail.com" "wrong" "tok").2
     { id := "u1", email := "a@gmail.com", full_name := "A B",
       password_hash := "right:salt", password_salt := "salt",
       created_at := "2025-01-01", is_new_account := true }
     rfl (by decide)⟩

/-- A successful signup, fully evaluated: with a valid email, password and
name and a fresh canonical email, `signup` returns the ok-response and the
state extended by the new account and the token registration. -/
theorem signup_ok (H : Hash) (st : AuthState)
    (e p n salt id1 t1 now : String)
    (hv : (validate_email (pyNormalize e)).1 = true)
    (hp : 6 ≤ p.length) (hn : n ≠ "") (hnl : 2 ≤ (pyStrip n).length)
    (hfresh : st.users.lookup (pyNormalize e) = none) :
    signup H st e p n salt id1 t1 now
      = (.ok { access_token := t1,
               user := { id := id1, email := pyNormalize e,
                         full_name := pyStrip n, isNewAccount := true },
               message := "Account created successfully" },
         { users := pySet st.users (pyNormalize e)
             { id := id1, email := pyNormalize e,
               full_name := pyStrip n, password_hash := H p salt,
               password_salt := salt, created_at := now,
               is_new_account := true },
           tokens := pySet st.tokens t1 (pyNormalize e) }) := by
  have hnp : ¬(p.length < 6) := by omega
  have hnn : (n == "") = false := beq_eq_false_iff_ne.mpr hn
  have hln : ¬((pyStrip n).length < 2) := by omega
  unfold signup
  simp only [hv, Bool.not_true, Bool.false_eq_true, if_false, hnp,
    hnn, decide_eq_false hln, Bool.or_self, Bool.or_false,
    Bool.false_eq_true, if_false, hfresh, Option.isSome_none,
    _hash_password, register_local_token]

/-- C1.  With a fresh canonical email and inputs passing validation, the
first signup succeeds and stores the account flagged `is_new_account`;
a second signup whose email canonicalises identically fails with the
duplicate-account error and leaves the registry state unchanged. -/
theorem C1_signup_duplicate_rejected (H : Hash) (st : AuthState)
    (e1 p1 n1 salt1 id1 t1 now1 e2 p2 n2 salt2 id2 t2 now2 : String)
    (heq : pyNormalize e2 = pyNormalize e1)
    (hv : (validate_email (pyNormalize e1)).1 = true)
    (hp1 : 6 ≤ p1.length) (hn1 : n1 ≠ "") (hn1l : 2 ≤ (pyStrip n1).length)
    (hp2 : 6 ≤ p2.length) (hn2 : n2 ≠ "") (hn2l : 2 ≤ (pyStrip n2).length)
    (hfresh : st.users.lookup (pyNormalize e1) = none) :
    (signup H st e1 p1 n1 salt1 id1 t1 now1).1
      = .ok { access_token := t1,
              user := { id := id1, email := pyNormalize e1,
                        full_name := pyStrip n1, isNewAccount := true },
              message := "Account created successfully" } ∧
    ((signup H st e1 p1 n1 salt1 id1 t1 now1).2.users.lookup
        (pyNormalize e1)).map Account.is_new_account = some true ∧
    signup H (signup H st e1 p1 n1 salt1 id1 t1 now1).2 e2 p2 n2 salt2 id2
        t2 now2
      = (.error "An account with this email already exists",
         (signup H st e1 p1 n1 salt1 id1 t1 now1).2) := by
  have hnp2 : ¬(p2.length < 6) := by omega
  have hnn2 : (n2 == "") = false := beq_eq_false_iff_ne.mpr hn2
  have hln2 : ¬((pyStrip n2).length < 2) := by omega
  have hstep := signup_ok H st e1 p1 n1 salt1 id1 t1 now1 hv hp1 hn1
    hn1l hfresh
  refine ⟨by rw [hstep], ?_, ?_⟩
  · rw [hstep]
    simp only [lookup_pySet_self]
    rfl
  · have hdup : ((signup H st e1 p1 n1 salt1 id1 t1 now1).2.users.lookup
        (pyNormalize e2)).isSome = true := by
      rw [heq, hstep]
      rw [lookup_pySet_self]
      rfl
    generalize hs1 : (signup H st e1 p1 n1 salt1 id1 t1 now1).2 = st1 at hdup ⊢
    have hv2 : (validate_email (pyNormalize e2)).1 = true := by rw [heq]; exact hv
    unfold signup
    simp only [hv2, Bool.not_true, Bool.false_eq_true, if_false, hnp2,
      hnn2, decide_eq_false hln2, Bool.or_self, Bool.or_false, hdup,
      if_true]

/-- Witness for C1: two signups for `new.user@gmail.com` (differing in
case and padding) against the empty registry. -/
theorem C1_signup_duplicate_rejected_witness :
    (signup (fun p s => p ++ ":" ++ s) ⟨[], []⟩ "New.User@Gmail.com "
        "secret1" "New User" "s1" "uid-1" "tokA" "2025-01-01").1
      = .ok { access_token := "tokA",
              user := { id := "uid-1",
                        email := pyNormalize "New.User@Gmail.com ",
                        full_name := pyStrip "New User",
                        isNewAccount := true },
              message := "Account created successfully" } ∧
    signup (fun p s => p ++ ":" ++ s)
        (signup (fun p s => p ++ ":" ++ s) ⟨[], []⟩ "New.User@Gmail.com "
          "secret1" "New User" "s1" "uid-1" "tokA" "2025-01-01").2
        "new.user@gmail.com" "secret2" "Other Person" "s2" "uid-2" "tokB"
        "2025-01-02"
      = (.error "An account with this email already exists",
         (signup (fun p s => p ++ ":" ++ s) ⟨[], []⟩ "New.User@Gmail.com "
           "secret1" "New User" "s1" "uid-1" "tokA" "2025-01-01").2) :=
  ⟨(C1_signup_duplicate_rejected (fun p s => p ++ ":" ++ s) ⟨[], []⟩
      "New.User@Gmail.com " "secret1" "New User" "s1" "uid-1" "tokA"
      "2025-01-01" "new.user@gmail.com" "secret2" "Other Person" "s2"
      "uid-2" "tokB" "2025-01-02" (by decide) (by decide) (by decide)
      (by decide) (by decide) (by decide) (by decide) (by decide) rfl).1,
   (C1_signup_duplicate_rejected (fun p s => p ++ ":" ++ s) ⟨[], []⟩
      "New.User@Gmail.com " "secret1" "New User" "s1" "uid-1" "tokA"
      "2025-01-01" "new.user@gmail.com" "secret2" "Other Person" "s2"
      "uid-2" "tokB" "2025-01-02" (by decide) (by decide) (by decide)
      (by decide) (by decide) (by decide) (by decide) (by decide) rfl).2.2⟩

/-- C4.  After a successful signup issuing token `t1`, a login with the
same canonical email and the correct password succeeds and returns the
fresh token `t2 ≠ t1`, and `get_current_user` resolves both tokens to the
identity whose `id` is the one assigned at signup (neither token is
rotated or invalidated). -/
theorem C4_login_and_both_tokens_resolve (H : Hash) (st : AuthState)
    (e p n salt id1 t1 now e2 t2 : String)
    (hv : (validate_email (pyNormalize e)).1 = true)
    (hp : 6 ≤ p.length) (hn : n ≠ "") (hnl : 2 ≤ (pyStrip n).length)
    (hfresh : st.users.lookup (pyNormalize e) = none)
    (heq : pyNormalize e2 = pyNormalize e)
    (ht1 : 20 < t1.length) (ht2 : 20 < t2.length) (hne : t1 ≠ t2) :
    (login H (signup H st e p n salt id1 t1 now).2 e2 p t2).1
      = .ok { access_token := t2,
              user := { id := id1, email := pyNormalize e,
                        full_name := pyStrip n, isNewAccount := true,
                        isAdmin := false } } ∧
    get_current_user
        (login H (signup H st e p n salt id1 t1 now).2 e2 p t2).2 (some t1)
      = .ok { id := id1, email := pyNormalize e, full_name := pyStrip n,
              is_demo := false, is_new_account := true,
              is_admin := false } ∧
    get_current_user
        (login H (signup H st e p n salt id1 t1 now).2 e2 p t2).2 (some t2)
      = .ok { id := id1, email := pyNormalize e, full_name := pyStrip n,
              is_demo := false, is_new_account := true,
              is_admin := false } ∧
    t2 ≠ t1 := by
  have hstep := signup_ok H st e p n salt id1 t1 now hv hp hn hnl hfresh
  have hd1 : (t1 == "demo-token") = false := by
    refine beq_eq_false_iff_ne.mpr (fun hcon => ?_)
    rw [hcon] at ht1
    exact absurd ht1 (by decide)
  have hd2 : (t2 == "demo-token") = false := by
    refine beq_eq_false_iff_ne.mpr (fun hcon => ?_)
    rw [hcon] at ht2
    exact absurd ht2 (by decide)
  have hlogin : login H (signup H st e p n salt id1 t1 now).2 e2 p t2
      = (.ok { access_token := t2,
               user := { id := id1, email := pyNormalize e,
                         full_name := pyStrip n, isNewAccount := true,
                         isAdmin := false } },
         { users := pySet st.users (pyNormalize e)
             { id := id1, email := pyNormalize e,
               full_name := pyStrip n, password_hash := H p salt,
               password_salt := salt, created_at := now,
               is_new_account := true },
           tokens := pySet (pySet st.tokens t1 (pyNormalize e)) t2
             (pyNormalize e) }) := by
    rw [hstep]
    simp only [login, register_local_token, _hash_password, heq,
      lookup_pySet_self]
    rw [if_neg (fun hcon => hcon rfl)]
  refine ⟨by rw [hlogin], ?_, ?_, fun hcon => hne hcon.symm⟩
  · rw [hlogin]
    simp only [get_current_user, hd1, Bool.false_eq_true, if_false,
      ht1, if_true, lookup_pySet_ne _ _ _ _ hne, lookup_pySet_self]
  · rw [hlogin]
    simp only [get_current_user, hd2, Bool.false_eq_true, if_false,
      ht2, if_true, lookup_pySet_self]

/-- Witness for C4 at a concrete signup/login pair. -/
theorem C4_login_and_both_tokens_resolve_witness :
    get_current_user
        (login (fun p s => p ++ ":" ++ s)
          (signup (fun p s => p ++ ":" ++ s) ⟨[], []⟩ "new.user@gmail.com"
            "secret1" "New User" "s1" "uid-1"
            "AAAAAAAAAAAAAAAAAAAAAA" "2025-01-01").2
          "new.user@gmail.com" "secret1" "BBBBBBBBBBBBBBBBBBBBBB").2
        (some "AAAAAAAAAAAAAAAAAAAAAA")
      = .ok { id := "uid-1", email := pyNormalize "new.user@gmail.com",
              full_name := pyStrip "New User", is_demo := false,
              is_new_account := true, is_admin := false } ∧
    get_current_user
        (login (fun p s => p ++ ":" ++ s)
          (signup (fun p s => p ++ ":" ++ s) ⟨[], []⟩ "new.user@gmail.com"
            "secret1" "New User" "s1" "uid-1"
            "AAAAAAAAAAAAAAAAAAAAAA" "2025-01-01").2
          "new.user@gmail.com" "secret1" "BBBBBBBBBBBBBBBBBBBBBB").2
        (some "BBBBBBBBBBBBBBBBBBBBBB")
      = .ok { id := "uid-1", email := pyNormalize "new.user@gmail.com",
              full_name := pyStrip "New User", is_demo := false,
              is_new_account := true, is_admin := false } :=
  ⟨(C4_login_and_both_tokens_resolve (fun p s => p ++ ":" ++ s) ⟨[], []⟩
      "new.user@gmail.com" "secret1" "New User" "s1" "uid-1"
      "AAAAAAAAAAAAAAAAAAAAAA" "2025-01-01" "new.user@gmail.com"
      "BBBBBBBBBBBBBBBBBBBBBB" (by decide) (by decide) (by decide)
      (by decide) rfl rfl (by decide) (by decide) (by decide)).2.1,
   (C4_login_and_both_tokens_resolve (fun p s => p ++ ":" ++ s) ⟨[], []⟩
      "new.user@gmail.com" "secret1" "New User" "s1" "uid-1"
      "AAAAAAAAAAAAAAAAAAAAAA" "2025-01-01" "new.user@gmail.com"
      "BBBBBBBBBBBBBBBBBBBBBB" (by decide) (by decide) (by decide)
      (by decide) rfl rfl (by decide) (by decide) (by decide)).2.2.1⟩

/-! ## The C7 scenario: signup followed by the account's first data
mutation.  `create_income` (the route handler) takes only the document
store and the partition key — faithfully to the source, it performs no
call into the credential registry, and `mark_account_active` has no call
site anywhere in the repository. -/

/-- Concrete hash stand-in for the C7 scenario. -/
def c7Hash : Hash := fun p s => p ++ ":" ++ s

/-- The signup of the C7 scenario. -/
def c7Signup : Except String SignupResult × AuthState :=
  signup c7Hash ⟨[], []⟩ "new.user@gmail.com" "secret1" "New User" "s1"
    "uid-1" "AAAAAAAAAAAAAAAAAAAAAA" "2025-01-01T00:00:00"

/-- The validated income body of the C7 scenario. -/
def c7Body : Record :=
  [("amount", Val.num 500), ("source_name", Val.s "Upwork"),
   ("category", Val.s "freelance"), ("date", Val.s "2025-01-02"),
   ("description", Val.s "")]

/-- The account's first successful data mutation in the C7 scenario. -/
def c7CreateIncome : Record × FS :=
  create_income [] "uid-1" "rec-1" c7Body "2025-01-02" "2025-01-02T00:00:00"

/-- C7 (divergence exhibit).  The signup stores the account with
`is_new_account = true`; the account's first successful data mutation
(`create_income`) persists the income record yet, because the handler
never invokes `mark_account_active` (which no code in the repository
calls), the credential registry after the mutation is exactly the
post-signup registry — the account still reads `is_new_account = true`,
not `false` as the specified lifecycle requires.  The last conjunct
checks that the orphaned `mark_account_active` would have performed
exactly the specified flip had it been wired. -/
theorem C7_first_mutation_leaves_is_new_account_true :
    (c7Signup.2.users.lookup "new.user@gmail.com").map
        Account.is_new_account = some true ∧
      (get_incomes c7CreateIncome.2 "uid-1").length = 1 ∧
      c7CreateIncome.1.lookup "user_id" = some (Val.s "uid-1") ∧
      ((mark_account_active c7Signup.2 "new.user@gmail.com").users.lookup
          "new.user@gmail.com").map Account.is_new_account = some false :=
  ⟨rfl, rfl, rfl, rfl⟩

/-! ## C8: goal contributions clamp at the target -/

theorem updateGoalList_of_find (gid : String) (amt : Rat) :
    ∀ (l : List Record) (g : Record),
      l.find? (fun r => idMatches r gid) = some g →
      ∃ l', updateGoalList gid amt l = some (goalAddMoney g amt, l') := by
  intro l
  induction l with
  | nil => intro g h; simp [List.find?] at h
  | cons hd tl ih =>
      intro g h
      by_cases hm : idMatches hd gid = true
      · have hg : hd = g := by
          have := List.find?_cons_of_pos (p := fun r => idMatches r gid)
            tl hm
          rw [this] at h
          exact Option.some.inj h
        subst hg
        exact ⟨goalAddMoney hd amt :: tl, by simp [updateGoalList, hm]⟩
      · have hm' : (fun r => idMatches r gid) hd ≠ true := hm
        have htl : tl.find? (fun r => idMatches r gid) = some g := by
          have := List.find?_cons_of_neg (p := fun r => idMatches r gid)
            tl (by simpa using hm)
          rw [this] at h
          exact h
        obtain ⟨l', hl'⟩ := ih g htl
        refine ⟨hd :: l', ?_⟩
        simp [updateGoalList, hm, hl']

/-- C8.  For a stored goal satisfying `0 ≤ current_amount ≤ target_amount`
and any positive contribution, `add_money` succeeds and replaces
`current_amount` with `min (current_amount + amount) target_amount`, so
the returned goal again satisfies `0 ≤ current_amount ≤ target_amount`
and never exceeds the target. -/
theorem C8_goal_contribution_clamped (fs : FS) (uid gid : String)
    (amount cur tgt : Rat) (g : Record)
    (hf : (get_goals fs uid).find? (fun r => idMatches r gid) = some g)
    (hcur : g.lookup "current_amount" = some (Val.num cur))
    (htgt : g.lookup "target_amount" = some (Val.num tgt))
    (h0 : 0 ≤ cur) (hct : cur ≤ tgt) (hamt : 0 < amount) :
    (∃ fs', add_money fs uid gid amount
        = .ok (pySet g "current_amount"
            (Val.num (min (cur + amount) tgt)), fs')) ∧
      (pySet g "current_amount" (Val.num (min (cur + amount) tgt))).lookup
          "current_amount" = some (Val.num (min (cur + amount) tgt)) ∧
      (pySet g "current_amount" (Val.num (min (cur + amount) tgt))).lookup
          "target_amount" = some (Val.num tgt) ∧
      0 ≤ min (cur + amount) tgt ∧ min (cur + amount) tgt ≤ tgt := by
  have hg : goalAddMoney g amount
      = pySet g "current_amount" (Val.num (min (cur + amount) tgt)) := by
    unfold goalAddMoney getNum
    rw [hcur, htgt]
  obtain ⟨l', hl'⟩ := updateGoalList_of_find gid amount _ g hf
  refine ⟨⟨save_goals fs uid l', ?_⟩, lookup_pySet_self _ _ _, ?_, ?_, ?_⟩
  · unfold add_money
    rw [hl', hg]
  · rw [lookup_pySet_ne _ _ _ _
      (by decide : ("target_amount" : String) ≠ "current_amount")]
    exact htgt
  · exact le_min (add_nonneg h0 (le_of_lt hamt)) (h0.trans hct)
  · exact min_le_right _ _

/-- Witness for C8: the spec scenario, `current_amount = 0`,
`target_amount = 1000`, contribution `1500`, clamping at `1000`. -/
theorem C8_goal_contribution_clamped_witness :
    (∃ fs', add_money
        [(("u1", "goals"),
          some [[("id", Val.s "g1"), ("current_amount", Val.num 0),
                 ("target_amount", Val.num 1000)]])] "u1" "g1" 1500
        = .ok (pySet
            [("id", Val.s "g1"), ("current_amount", Val.num 0),
             ("target_amount", Val.num 1000)] "current_amount"
            (Val.num (min ((0 : Rat) + 1500) 1000)), fs')) ∧
      min ((0 : Rat) + 1500) 1000 = 1000 :=
  ⟨(C8_goal_contribution_clamped
      [(("u1", "goals"),
        some [[("id", Val.s "g1"), ("current_amount", Val.num 0),
               ("target_amount", Val.num 1000)]])] "u1" "g1" 1500 0 1000
      [("id", Val.s "g1"), ("current_amount", Val.num 0),
       ("target_amount", Val.num 1000)]
      rfl rfl rfl (by norm_num) (by norm_num) (by norm_num)).1,
   min_eq_right (by norm_num)⟩

/-- C9.  The dashboard aggregation is insensitive to unreadable
collection files: replacing every unparseable file by an empty one leaves
the entire dashboard result unchanged (such accounts contribute zero and
produce no flags), and `_load_data` reads both an unparseable file and a
missing file as the empty collection, so neither aborts the scan. -/
theorem C9_aggregation_tolerates_unreadable_files (st : AuthState) (fs : FS)
    (pyHash : String → Nat) (thirty_days_ago ninety_days_ago now uid t :
      String) :
    get_admin_dashboard st (cleanseFS fs) pyHash thirty_days_ago
        ninety_days_ago now
      = get_admin_dashboard st fs pyHash thirty_days_ago ninety_days_ago
          now ∧
      _load_data (pySet fs (uid, t) none) uid t = [] ∧
      _load_data (removeKey fs (uid, t)) uid t = [] := by
  refine ⟨?_, ?_, ?_⟩
  · have h : _load_data (cleanseFS fs) = _load_data fs :=
      funext fun uid' => funext fun t' => load_cleanse fs uid' t'
    unfold get_admin_dashboard
    rw [h]
  · unfold _load_data
    rw [lookup_pySet_self]
  · unfold _load_data
    rw [lookup_removeKey_self]

end Incomiq
